import Mathlib

/-!
Verification of the job-orchestration and field-reconciliation frontend of the
insurance document-processing pipeline.

The definitions below are shallow embeddings of the TypeScript/shell sources:
* `qc-new-results/page.tsx` — results polling loop, verdict badge rendering,
  three-way (policy / PL certificate / ACORD) comparison rows, coverage items;
* `qc-new` upload page — upload precondition guards and response handling;
* `client-form` confirmed page — status polling and finalize retry protocol;
* `start.sh` — the two Celery worker lanes;
* `ExtractedFieldsDisplay` — the field-flattening function.

The backend reconciler itself is not part of the source tree; where a claim
needs it, a definition explicitly marked `Modelled from the spec:` stands in.
-/

/-- The closed verdict enumeration of the specification:
`MATCH`, `MISMATCH`, `NOT_FOUND` (with `NAME_VARIATION` as an optional
qualifier, not a verdict of its own). -/
def closedVerdicts : List String := ["MATCH", "MISMATCH", "NOT_FOUND"]

/-- The optional qualifier attached to similar-but-not-identical matches. -/
def nameVariationQualifier : String := "NAME_VARIATION"

/-- Visual style classes used by the results page for a status badge. -/
inductive BadgeStyle where
  | green
  | red
  | yellow
deriving DecidableEq, Repr

/-- Badge style of `ValidationRow` (qc-new-results/page.tsx, lines 1268-1272):
green for `MATCH`, red for `MISMATCH` or `NOT_FOUND`, yellow fallback for any
other status string. -/
def validationRowStyle (status : String) : BadgeStyle :=
  if status = "MATCH" then .green
  else if status = "MISMATCH" ∨ status = "NOT_FOUND" then .red
  else .yellow

/-- Badge style of `CoverageItem` (lines 1355-1359): same branch structure as
`ValidationRow`. -/
def coverageItemStyle (status : String) : BadgeStyle :=
  if status = "MATCH" then .green
  else if status = "MISMATCH" ∨ status = "NOT_FOUND" then .red
  else .yellow

/-- Badge style of the three-way comparison rows (lines 769-775 and
1014-1020): same branch structure as `ValidationRow`. -/
def threeWayStyle (status : String) : BadgeStyle :=
  if status = "MATCH" then .green
  else if status = "MISMATCH" ∨ status = "NOT_FOUND" then .red
  else .yellow

/-- Badge style of the GL coverage-presence items (lines 608-611):
green exactly when the status is `PRESENT`, red for everything else. -/
def coveragePresenceStyle (status : String) : BadgeStyle :=
  if status = "PRESENT" then .green else .red

/-- One entry of `acord_pl_comparisons.core_fields` as read by the rendering
code (lines 756-813): a single `status` string plus the three source values
and an optional notes string. -/
structure ThreeWayEntry where
  status : String
  policy_value : Option String
  certificate_value : Option String
  acord_value : Option String
  notes : Option String
deriving DecidableEq, Repr

/-- One entry of `gl_acord_comparisons.core_fields` as read by the rendering
code (lines 1004-1048). -/
structure GlThreeWayEntry where
  status : String
  policy_value : Option String
  certificate_value : Option String
  gl_acord_value : Option String
  notes : Option String
deriving DecidableEq, Repr

/-- The rendered row for one three-way compared field: the list of status
badges shown for the field, the three value cells, and the notes cell. -/
structure RenderedThreeWayRow where
  label : String
  statusBadges : List String
  policyCell : String
  certCell : String
  thirdCell : String
  notesCell : Option String
deriving DecidableEq, Repr

/-- JavaScript `x ?? "N/A"` on an optional string. -/
def coalesceNA (o : Option String) : String := o.getD "N/A"

/-- JavaScript `x || "N/A"` on an optional string (the empty string is falsy). -/
def orNA (o : Option String) : String :=
  match o with
  | none => "N/A"
  | some s => if s = "" then "N/A" else s

/-- Field label formatting used throughout the page:
`field.replace(/_/g, " ").toUpperCase()`. -/
def fieldLabel (field : String) : String := (field.replace "_" " ").toUpper

/-- Rendering of one `acordPlCoreComparisons` entry (lines 756-813): the row
shows exactly the one `data.status` badge next to the field label, the three
source value cells (`?? "N/A"`), and the notes. -/
def renderAcordPlCoreRow (field : String) (d : ThreeWayEntry) : RenderedThreeWayRow :=
  { label := fieldLabel field
  , statusBadges := [d.status]
  , policyCell := coalesceNA d.policy_value
  , certCell := coalesceNA d.certificate_value
  , thirdCell := coalesceNA d.acord_value
  , notesCell := d.notes }

/-- Rendering of one `glAcordCoreComparisons` entry (lines 1004-1048): again a
single `data.status` badge, with `|| "N/A"` value cells. -/
def renderGlAcordCoreRow (field : String) (d : GlThreeWayEntry) : RenderedThreeWayRow :=
  { label := fieldLabel field
  , statusBadges := [d.status]
  , policyCell := orNA d.policy_value
  , certCell := orNA d.certificate_value
  , thirdCell := orNA d.gl_acord_value
  , notesCell := d.notes }

/-! ## Upload submission guards (`qc-new` upload page, `handleUpload`) -/

/-- Which documents are attached to a QC upload submission.  The page keeps
one file slot per role: PL certificate, GL certificate, ACORD certificate,
GL ACORD certificate, and the policy. -/
structure QCFiles where
  plCertificate : Bool
  glCertificate : Bool
  acordCertificate : Bool
  glAcordCertificate : Bool
  policy : Bool
deriving DecidableEq, Repr

/-- Server response to `POST /qc-new/upload-unified` as consumed by
`handleUpload`: a parsed JSON body with optional `upload_id` and `task_id`,
an HTTP error, an unparsable body, or an abort after the 120 s timeout. -/
inductive UploadServerResp where
  | ok (upload_id : Option String) (task_id : Option String)
  | httpError (msg : Option String)
  | parseFail
  | abortTimeout
deriving DecidableEq, Repr

/-- Outcome of `handleUpload` as observed by the page. -/
inductive UploadOutcome where
  | rejectedBeforeRequest (msg : String)
  | requestFailed (msg : String)
  | accepted (uploadId : String)
deriving DecidableEq, Repr

/-- The `upload_id` carried by a server response, if any. -/
def respUploadId (resp : UploadServerResp) : Option String :=
  match resp with
  | .ok uid _ => uid
  | _ => none

/-- Shallow embedding of `handleUpload` (qc-new upload page, lines 259-360).
The guards run before any request: missing both PL and GL certificates, or a
missing policy, set an error and return without contacting the server.
Otherwise the request is sent and the response is checked for `upload_id`.
The second component records whether the request was sent. -/
def handleUpload (f : QCFiles) (resp : UploadServerResp) : UploadOutcome × Bool :=
  if !f.plCertificate && !f.glCertificate then
    (.rejectedBeforeRequest "Please upload at least one certificate (PL or GL) and the policy PDF",
     false)
  else if !f.policy then
    (.rejectedBeforeRequest "Please upload the policy PDF", false)
  else
    match resp with
    | .ok (some uid) _ => (.accepted uid, true)
    | .ok none _ =>
        (.requestFailed "Server did not return upload_id. Task may not have been queued.", true)
    | .httpError msg => (.requestFailed (msg.getD "Upload failed"), true)
    | .parseFail => (.requestFailed "Invalid response from server", true)
    | .abortTimeout =>
        (.requestFailed "Upload timeout: Large files may take up to 2 minutes to process. Please try again or use smaller files.",
         true)

/-- The acceptance predicate as the claim words it: the one required policy
document together with at least one role-tagged certificate/authority
document of any role.  (Stated from the claim, for comparison with
`handleUpload`.) -/
def claimAccepts (f : QCFiles) : Bool :=
  f.policy &&
    (f.plCertificate || f.glCertificate || f.acordCertificate || f.glAcordCertificate)

/-! ## Results polling loop (`qc-new-results/page.tsx`, `fetchResults`) -/

/-- Retry budget of the results polling loop (line 44):
`maxRetries = 600` retries of 3 seconds each. -/
def maxRetries : Nat := 600

/-- Fixed inter-attempt delay in milliseconds (lines 86, 107, 133). -/
def retryDelayMs : Nat := 3000

/-- One response of `GET /qc-new/unified-results/{id}` as classified by
`fetchResults`:
* `httpErr code` — `!response.ok` with the given HTTP status;
* `bodyNotReady` — a parsed body with `success`/`merged` missing whose error
  text contains "not ready";
* `bodyOtherErr` — a parsed body with some other error (thrown, then caught);
* `ok` — `success` and `merged` both present;
* `netErr` — the fetch itself threw. -/
inductive ResultsResp where
  | httpErr (code : Nat)
  | bodyNotReady
  | bodyOtherErr
  | ok
  | netErr
deriving DecidableEq, Repr

/-- Terminal result of the polling loop. -/
inductive PollResult where
  | success
  | errorOut (msg : String)
  | fuelOut
deriving DecidableEq, Repr

/-- What a full run of the polling loop did: how many requests it issued, how
it ended, and the delay of every retry it scheduled. -/
structure PollRun where
  attempts : Nat
  result : PollResult
  delays : List Nat
deriving DecidableEq, Repr

/-- Prepend one performed attempt (and its scheduled retry delay) to a run. -/
def PollRun.afterRetry (r : PollRun) : PollRun :=
  { attempts := r.attempts + 1, result := r.result, delays := retryDelayMs :: r.delays }

/-- Shallow embedding of the `fetchResults` retry loop (lines 49-145) in the
steady state where no results are loaded and the effect is not cancelled.
`env n` is the response observed by the attempt that starts with
`retryCount = n`; the loop re-invokes itself through `setTimeout(..., 3000)`
exactly when the branch conditions of the source allow another retry.  The
`fuel` argument only bounds the recursion for Lean; the theorems show that
`maxRetries + 1` fuel is never exhausted. -/
def fetchResultsLoop (env : Nat → ResultsResp) : Nat → Nat → PollRun
  | 0, _ => { attempts := 0, result := .fuelOut, delays := [] }
  | fuel + 1, rc =>
    match env rc with
    | .ok => { attempts := 1, result := .success, delays := [] }
    | .httpErr code =>
        -- "For 404 or 500, retry (might be processing)" (line 83)
        if (code = 404 ∨ code = 500) ∧ rc < maxRetries then
          (fetchResultsLoop env fuel (rc + 1)).afterRetry
        else
          -- throw, then the catch block retries while budget remains (line 130)
          if rc < maxRetries then (fetchResultsLoop env fuel (rc + 1)).afterRetry
          else { attempts := 1, result := .errorOut "Failed to load results after multiple attempts. Please check if the backend is running on Railway.", delays := [] }
    | .bodyNotReady =>
        if rc < maxRetries then (fetchResultsLoop env fuel (rc + 1)).afterRetry
        else { attempts := 1, result := .errorOut "Results are taking longer than expected (30+ minutes). The QC task may have failed. Please check Railway logs or try uploading again.", delays := [] }
    | .bodyOtherErr =>
        -- thrown, then caught (line 126): retry while budget remains
        if rc < maxRetries then (fetchResultsLoop env fuel (rc + 1)).afterRetry
        else { attempts := 1, result := .errorOut "Unknown error occurred", delays := [] }
    | .netErr =>
        if rc < maxRetries then (fetchResultsLoop env fuel (rc + 1)).afterRetry
        else { attempts := 1, result := .errorOut "Failed to load results after multiple attempts. Please check if the backend is running on Railway.", delays := [] }

/-- The environment in which the backend never becomes ready. -/
def neverReadyEnv : Nat → ResultsResp := fun _ => .bodyNotReady

/-! ## Single-attempt guards of the polling effect (`fetchResults` body)

The effect captures `results` as a constant (`resultsLoaded`) and a mutable
`isCancelled` flag that the cleanup sets to `true` and that is re-read at
every check point.  Because cancellation only ever flips `false` to `true`,
the values read at the successive check sites are modelled as separate
booleans `c1` (line 51, entry), `c2` (line 67, after the fetch), `c3`
(line 83, the HTTP-retry condition), `c4` (lines 96 and 104, after parsing),
and `cc` (line 130, inside the catch block). -/

/-- Externally visible actions of one `fetchResults` invocation. -/
structure StepOut where
  fetched : Bool
  scheduled : Bool
  setResultsCalled : Bool
  setErrorCalled : Bool
deriving DecidableEq, Repr

/-- One invocation of `fetchResults` (lines 49-143), with the cancellation
flag sampled at each check site and `resultsLoaded` the value of the captured
`results` binding. -/
def fetchStep (resultsLoaded c1 c2 c3 c4 cc : Bool) (rc : Nat) (resp : ResultsResp) : StepOut :=
  -- line 51: if (isCancelled || results) return
  if c1 || resultsLoaded then ⟨false, false, false, false⟩
  else
    match resp with
    | .netErr =>
        -- the fetch threw; catch block, line 130
        if rc < maxRetries && !cc && !resultsLoaded then ⟨true, true, false, false⟩
        else ⟨true, false, false, !resultsLoaded⟩
    | .httpErr code =>
        -- line 67: re-check after the fetch
        if c2 || resultsLoaded then ⟨true, false, false, false⟩
        else if (code = 404 || code = 500) && rc < maxRetries && !c3 then
          ⟨true, true, false, false⟩
        else
          -- throw, then catch block, line 130
          if rc < maxRetries && !cc && !resultsLoaded then ⟨true, true, false, false⟩
          else ⟨true, false, false, !resultsLoaded⟩
    | .bodyNotReady =>
        if c2 || resultsLoaded then ⟨true, false, false, false⟩
        -- line 96: re-check after parsing
        else if c4 || resultsLoaded then ⟨true, false, false, false⟩
        else if rc < maxRetries && !c4 then ⟨true, true, false, false⟩
        else ⟨true, false, false, true⟩
    | .bodyOtherErr =>
        if c2 || resultsLoaded then ⟨true, false, false, false⟩
        else if c4 || resultsLoaded then ⟨true, false, false, false⟩
        -- throw, then catch block, line 130
        else if rc < maxRetries && !cc && !resultsLoaded then ⟨true, true, false, false⟩
        else ⟨true, false, false, !resultsLoaded⟩
    | .ok =>
        if c2 || resultsLoaded then ⟨true, false, false, false⟩
        else if c4 || resultsLoaded then ⟨true, false, false, false⟩
        -- lines 121-125: success, stop polling, no further retry is scheduled
        else ⟨true, false, true, false⟩

/-- Effect-local state of the polling effect: the cancellation flag and the
pending retry timer, if one is scheduled. -/
structure EffectLocal where
  cancelled : Bool
  pendingTimer : Option Nat
deriving DecidableEq, Repr

/-- The effect cleanup (lines 148-153): mark the effect cancelled and clear
the pending timeout, if any. -/
def effectCleanup (_e : EffectLocal) : EffectLocal :=
  { cancelled := true, pendingTimer := none }

/-! ## Worker lanes (`start.sh`, lines 26-41) -/

/-- Configuration of one Celery worker as launched by `start.sh`. -/
structure WorkerConfig where
  name : String
  queues : List String
  concurrency : Nat
  withoutMingle : Bool
  withoutGossip : Bool
deriving DecidableEq, Repr

/-- `celery -A tasks worker --concurrency=1 --queues=qc --without-mingle
--without-gossip -n qc_worker@%h` (line 30). -/
def qcWorker : WorkerConfig :=
  { name := "qc_worker", queues := ["qc"], concurrency := 1
  , withoutMingle := true, withoutGossip := true }

/-- `celery -A tasks worker --concurrency=1 --queues=summary --without-mingle
--without-gossip -n summary_worker@%h` (line 35). -/
def summaryWorker : WorkerConfig :=
  { name := "summary_worker", queues := ["summary"], concurrency := 1
  , withoutMingle := true, withoutGossip := true }

/-- The complete worker set the startup script launches. -/
def startShWorkers : List WorkerConfig := [qcWorker, summaryWorker]

/-- The two typed work units of the lane scheduler. -/
inductive WorkUnit where
  | qualityControl
  | summaryUnit
deriving DecidableEq, Repr

/-- Modelled from the spec: the routing key of the lane scheduler is the unit
type (spec section 4.2); the Celery task definitions that pin tasks to the
`qc` and `summary` queues are in the backend `tasks` module, which is not in
the source tree.  Quality-control units go to the `qc` queue and summary
units to the `summary` queue, matching the queue names in `start.sh`. -/
def routeUnit : WorkUnit → String
  | .qualityControl => "qc"
  | .summaryUnit => "summary"

/-- The workers that consume a given queue. -/
def consumersOf (q : String) : List WorkerConfig :=
  startShWorkers.filter (fun w => q ∈ w.queues)

/-! ## Status polling and finalize protocol
(`client-form` confirmed page, `checkStatusAndFinalize`, lines 89-236) -/

/-- Poll budget of the confirmed page (line 82): `maxPolls = 240`. -/
def maxPolls : Nat := 240

/-- Client-side state touched by one tick of `checkStatusAndFinalize`. -/
structure FinalizeClientState where
  pollCount : Nat
  isFinalizing : Bool
  polling : Bool
  processing : Bool
  complete : Bool
  error : Option String
  sheetUrl : Option String
deriving DecidableEq, Repr

/-- Response of `GET /upload-status/{id}` as classified by the tick. -/
inductive StatusFetch where
  | http404
  | parseFail
  | body (ready : Bool) (completed expected : Nat)
  | netError
deriving DecidableEq, Repr

/-- Response of `GET /finalize-upload?...` as classified by the tick:
a parse failure, a parsed body with its `ok`/`success`/`inProgress`/
`sheetUrl`/`error` fields, or a thrown network error. -/
inductive FinalizeFetch where
  | parseFail
  | body (ok success inProgress : Bool) (sheetUrl : Option String) (error : Option String)
  | netError
deriving DecidableEq, Repr

/-- The requests a tick can issue: the status fetch and the finalize fetch.
`checkStatusAndFinalize` performs no other request — in particular it never
re-uploads documents or re-runs extraction. -/
inductive TickReq where
  | statusReq
  | finalizeReq
deriving DecidableEq, Repr

/-- Result of one tick: the new client state and the requests issued. -/
structure TickResult where
  state : FinalizeClientState
  requests : List TickReq
deriving DecidableEq, Repr

/-- `stopPolling()` followed by `setError(msg)` and `setIsProcessing(false)`. -/
def stopWithError (s : FinalizeClientState) (msg : String) : FinalizeClientState :=
  { s with polling := false, processing := false, error := some msg }

/-- The catch block of the tick (lines 222-235): reset the finalize flag and
keep polling while fewer than 50 polls have happened. -/
def tickCatch (s : FinalizeClientState) (attempt : Nat) (msg : String)
    (reqs : List TickReq) : TickResult :=
  let s := { s with isFinalizing := false }
  if attempt < 50 then ⟨s, reqs⟩
  else ⟨stopWithError s msg, reqs⟩

/-- The finalize-response parse failure path (lines 175-189): reset the
finalize flag and retry while fewer than 50 polls have happened. -/
def tickCatchParse (s : FinalizeClientState) (attempt : Nat) : TickResult :=
  let s := { s with isFinalizing := false }
  if attempt < 50 then ⟨s, [.statusReq, .finalizeReq]⟩
  else ⟨stopWithError s "Failed to push data to Google Sheets", [.statusReq, .finalizeReq]⟩

/-- Shallow embedding of one invocation of `checkStatusAndFinalize`
(lines 89-236).  The interval fires the function every 3 seconds; `polling`
mirrors whether the interval is still installed (`stopPolling` clears it).
`sf` is the status response; `ff` is the finalize response, consulted only on
the path that actually issues the finalize request. -/
def checkStatusAndFinalize (s : FinalizeClientState) (sf : StatusFetch)
    (ff : FinalizeFetch) : TickResult :=
  let attempt := s.pollCount + 1
  let s := { s with pollCount := attempt }
  match sf with
  | .netError => tickCatch s attempt "Failed to communicate with server" [.statusReq]
  | .http404 =>
      if attempt ≥ maxPolls then
        ⟨stopWithError s "Upload not found. Please try again.", [.statusReq]⟩
      else ⟨s, [.statusReq]⟩
  | .parseFail =>
      if attempt < 30 then ⟨s, [.statusReq]⟩
      else ⟨stopWithError s "Failed to communicate with server", [.statusReq]⟩
  | .body ready _ _ =>
      if !ready then
        if attempt ≥ maxPolls then
          ⟨stopWithError s "Processing is taking longer than expected. Please check back in a few minutes.", [.statusReq]⟩
        else ⟨s, [.statusReq]⟩
      else if s.isFinalizing then
        -- line 157: finalize already in progress on the client, skip
        ⟨s, [.statusReq]⟩
      else
        let s := { s with isFinalizing := true }
        match ff with
        | .parseFail =>
            tickCatchParse s attempt
        | .netError =>
            tickCatch s attempt "Failed to communicate with server" [.statusReq, .finalizeReq]
        | .body ok success inProgress url err =>
            if inProgress then
              -- lines 191-196: a server-side lock; keep polling, keep the flag
              ⟨s, [.statusReq, .finalizeReq]⟩
            else if ok && success then
              -- lines 198-206: done; stop polling and mark complete
              let s := { s with polling := false, processing := false,
                                complete := true, sheetUrl := url }
              ⟨s, [.statusReq, .finalizeReq]⟩
            else
              -- lines 208-220: finalize failed, allow a retry for a while
              let s := { s with isFinalizing := false }
              if attempt < 60 then ⟨s, [.statusReq, .finalizeReq]⟩
              else
                ⟨stopWithError s
                  (match err with
                   | some m => if m = "" then "Failed to push data to Google Sheets" else m
                   | none => "Failed to push data to Google Sheets"),
                 [.statusReq, .finalizeReq]⟩

/-! ## Field flattening (`ExtractedFieldsDisplay`, `flattenData`, lines 72-113) -/

/-- JSON-like values of the extracted-fields payload.  JavaScript `null` and
`undefined` are distinguished constructors because the source checks for
both. -/
inductive JVal where
  | null
  | undef
  | bool (b : Bool)
  | num (n : Int)
  | str (s : String)
  | arr (xs : List JVal)
  | obj (fields : List (String × JVal))

/-- One flattened display entry: the value shown and its color flag.
JavaScript objects pushed by `flattenData` always carry at least the `value`
and `color` properties, which are the only ones read by the rendering. -/
structure FlatEntry where
  value : JVal
  color : JVal

/-- Key lookup in a JavaScript object, first binding wins (the model of the
`in` operator and property access). -/
def lookupKey (fields : List (String × JVal)) (k : String) : Option JVal :=
  match fields with
  | [] => none
  | (k2, v) :: rest => if k2 = k then some v else lookupKey rest k

/-- `const newKey = prefix ? `...` : key` (line 78). -/
def joinKey (pfx k : String) : String :=
  if pfx = "" then k else pfx ++ " > " ++ k

/-- Shallow embedding of `flattenData` (lines 72-113).  `fuel` bounds the
nesting depth the model descends into (the JavaScript recursion is bounded by
the finite depth of the document); all theorems below hold for every fuel
value.  Per entry:
* `null`/`undefined` values are skipped (line 76);
* a flagged field (object with `value` and `color` keys, only when
  `isFlagged`) is either recursively flattened (when its inner value is a
  non-array object, lines 86-98) or pushed as-is (line 101) — every entry of
  a recursive flatten already carries `value`/`color`, so the wrapping
  else-branch of lines 94-97 is unreachable and entries are pushed as-is;
* a plain non-array object is recursively flattened (line 105);
* anything else is pushed with the color flag `black` (line 108). -/
def flattenData (isFlagged : Bool) : Nat → String → List (String × JVal) →
    List (String × FlatEntry)
  | _, _, [] => []
  | fuel, pfx, (k, v) :: rest =>
    (match fuel, v with
     | _, .null => []
     | _, .undef => []
     | fuel, .obj fields =>
       let newKey := joinKey pfx k
       if isFlagged && (lookupKey fields "value").isSome
           && (lookupKey fields "color").isSome then
         let fval := (lookupKey fields "value").getD .null
         let fcol := (lookupKey fields "color").getD .null
         match fuel, fval with
         | f + 1, .obj nested => flattenData isFlagged f newKey nested
         | _, _ => [(newKey, ⟨fval, fcol⟩)]
       else
         match fuel with
         | f + 1 => flattenData isFlagged f newKey fields
         | 0 => []
     | _, other => [(joinKey pfx k, ⟨other, .str "black"⟩)])
    ++ flattenData isFlagged fuel pfx rest
termination_by fuel _ l => (fuel, l.length)

/-! ## Additional-interest reconciliation and its rendering -/

/-- ASCII lower-casing of one character. -/
def lowerChar (c : Char) : Char :=
  if 65 ≤ c.toNat ∧ c.toNat ≤ 90 then Char.ofNat (c.toNat + 32) else c

/-- Split a character list into space-separated chunks (the accumulator holds
the current chunk reversed). -/
def splitWords : List Char → List Char → List (List Char)
  | [], acc => [acc.reverse]
  | c :: cs, acc =>
    if c = ' ' then acc.reverse :: splitWords cs []
    else splitWords cs (c :: acc)

/-- Join words with single spaces. -/
def joinWords : List (List Char) → List Char
  | [] => []
  | [w] => w
  | w :: ws => w ++ ' ' :: joinWords ws

/-- Case- and whitespace-insensitive normalization of a name (spec section
4.4: compared values are normalized before comparison): lower-case all
characters, split on spaces, drop empty chunks, and re-join with single
spaces. -/
def normalizeName (s : String) : String :=
  String.mk (joinWords
    (((splitWords s.data []).map (fun w => w.map lowerChar)).filter (fun w => w ≠ [])))

/-- Levenshtein edit distance on character lists, with a structural fuel
argument (one unit per consumed character; the combined length is always
enough, see `editDistance`). -/
def editDistanceAux : Nat → List Char → List Char → Nat
  | 0, as, bs => as.length + bs.length
  | _ + 1, [], bs => bs.length
  | _ + 1, a :: as, [] => (a :: as).length
  | fuel + 1, a :: as, b :: bs =>
    if a = b then editDistanceAux fuel as bs
    else 1 + min (editDistanceAux fuel as bs)
      (min (editDistanceAux fuel (a :: as) bs) (editDistanceAux fuel as (b :: bs)))

/-- Levenshtein edit distance on character lists. -/
def editDistance (as bs : List Char) : Nat :=
  editDistanceAux (as.length + bs.length) as bs

/-- Similarity threshold for name-like fields (spec section 4.4 leaves the
threshold implementation-defined but edit-distance based; a single-character
OCR-style substitution must fall inside it). -/
def nameSimilarityThreshold : Nat := 2

/-- Modelled from the spec: the fuzzy name comparison of additional-interest
reconciliation (spec sections 4.4 and 8).  The backend reconciler is not in
the source tree; per the spec, identical normalized names are a plain
`MATCH`, names within the similarity threshold but not identical are a
`MATCH` qualified `NAME_VARIATION`, and anything else is a `MISMATCH`. -/
def reconcileInterestName (policyName certName : String) : String × Option String :=
  let p := normalizeName policyName
  let c := normalizeName certName
  if p = c then ("MATCH", none)
  else if editDistance p.data c.data ≤ nameSimilarityThreshold then
    ("MATCH", some nameVariationQualifier)
  else ("MISMATCH", none)

/-- JavaScript truthiness of an optional string (absent and empty are falsy). -/
def truthyOpt (o : Option String) : Bool :=
  match o with
  | none => false
  | some s => s ≠ ""

/-- The fields of one coverage/additional-interest item read by the
`CoverageItem` component (lines 1298-1418). -/
structure CoverageItemData where
  status : String
  match_type : Option String
  cert_limit_key : Option String
  cert_interest_name : Option String
  cert_interest_address : Option String
  policy_interest_name : Option String
  policy_interest_address : Option String
  policy_interest_type : Option String
  notes : Option String
  evidence : Option String
deriving DecidableEq, Repr

/-- `item.match_type && item.match_type === "NAME_VARIATION"` (lines 1350 and
1375). -/
def matchTypeIsVariation (o : Option String) : Bool :=
  match o with
  | none => false
  | some m => m ≠ "" && m = nameVariationQualifier

/-- What `CoverageItem` renders for one item: the status badge text and
style, whether the orange `OCR Variation` badge is shown (line 1350), and
whether the additional-interest name-variation notice is shown (line 1375). -/
structure RenderedCoverageItem where
  statusText : String
  styleClass : BadgeStyle
  variationBadge : Bool
  variationNotice : Bool
deriving DecidableEq, Repr

/-- Shallow embedding of the `CoverageItem` component (lines 1298-1418),
restricted to the status and qualifier surface. -/
def renderCoverageItem (it : CoverageItemData) : RenderedCoverageItem :=
  let isGLLimitItem := truthyOpt it.cert_limit_key
  let isAdditionalInterest := truthyOpt it.cert_interest_name && !isGLLimitItem
  { statusText := it.status
  , styleClass := coverageItemStyle it.status
  , variationBadge := matchTypeIsVariation it.match_type
  , variationNotice := isAdditionalInterest && matchTypeIsVariation it.match_type }

/-- Modelled from the spec: the additional-interest item the backend builds
for one named party, carrying the verdict and qualifier of
`reconcileInterestName` into the fields the frontend reads. -/
def mkInterestItem (policyName certName : String) : CoverageItemData :=
  let v := reconcileInterestName policyName certName
  { status := v.1, match_type := v.2, cert_limit_key := none
  , cert_interest_name := some certName, cert_interest_address := none
  , policy_interest_name := some policyName, policy_interest_address := none
  , policy_interest_type := none, notes := none, evidence := none }

/-- JavaScript-truthiness test for the color flag the display reads: whether
the flag is the string `black`. -/
def isBlackFlag : JVal → Bool
  | .str s => s = "black"
  | _ => false

/-! ## Theorems -/

/-- C6: in the reference configuration the scheduler runs exactly two worker
lanes, one consuming only the quality-control queue and one consuming only
the summary queue, each processing at most 1 unit concurrently, with routing
determined by unit type and no cross-lane borrowing (each routed queue is
consumed by exactly one worker, and the two unit types route to different
queues). -/
theorem C6_two_worker_lanes :
    startShWorkers.length = 2 ∧
    startShWorkers = [qcWorker, summaryWorker] ∧
    qcWorker.queues = ["qc"] ∧
    summaryWorker.queues = ["summary"] ∧
    (∀ w ∈ startShWorkers, w.concurrency = 1) ∧
    consumersOf (routeUnit .qualityControl) = [qcWorker] ∧
    consumersOf (routeUnit .summaryUnit) = [summaryWorker] ∧
    routeUnit .qualityControl ≠ routeUnit .summaryUnit := by
  refine ⟨rfl, rfl, rfl, rfl, ?_, ?_, ?_, ?_⟩ <;> decide

/-- C1 counterexample: for a field compared across three sources (policy,
PL certificate, ACORD) where the PL value matches the policy and the ACORD
source lacks the field, the rendered row carries exactly one collapsed status
badge — `NOT_FOUND` does not appear alongside `MATCH`, and no row ever
carries a separate verdict per source pair. -/
theorem C1_counterexample :
    (renderAcordPlCoreRow "effective_date"
      ⟨"MATCH", some "01/01/2024", some "01/01/2024", none, none⟩).statusBadges = ["MATCH"] ∧
    (renderAcordPlCoreRow "effective_date"
      ⟨"MATCH", some "01/01/2024", some "01/01/2024", none, none⟩).statusBadges.length = 1 ∧
    ¬ ("MATCH" ∈ (renderAcordPlCoreRow "effective_date"
        ⟨"MATCH", some "01/01/2024", some "01/01/2024", none, none⟩).statusBadges ∧
       "NOT_FOUND" ∈ (renderAcordPlCoreRow "effective_date"
        ⟨"MATCH", some "01/01/2024", some "01/01/2024", none, none⟩).statusBadges) ∧
    ¬ (∀ (field : String) (d : ThreeWayEntry),
        2 ≤ (renderAcordPlCoreRow field d).statusBadges.length) := by
  refine ⟨rfl, rfl, by decide, fun h => ?_⟩
  have := h "effective_date" ⟨"MATCH", some "01/01/2024", some "01/01/2024", none, none⟩
  simp [renderAcordPlCoreRow] at this

/-- C1 (amended): every three-way compared field (both the policy / PL / ACORD
rows and the policy / GL / GL-ACORD rows) is reported with the single
collapsed `status` of the comparison entry — exactly one verdict badge per
field, with the three source values and a free-text notes cell alongside;
there is no per-source-pair verdict. -/
theorem C1_single_collapsed_status (field : String) (d : ThreeWayEntry)
    (d2 : GlThreeWayEntry) :
    (renderAcordPlCoreRow field d).statusBadges = [d.status] ∧
    (renderGlAcordCoreRow field d2).statusBadges = [d2.status] :=
  ⟨rfl, rfl⟩

/-- C7 counterexample: the GL coverage-presence items of the reconciliation
output carry the status `PRESENT` — their renderer treats `PRESENT` (and
nothing else) as the positive verdict, yet `PRESENT` is outside the closed
enumeration `MATCH`/`MISMATCH`/`NOT_FOUND`. -/
theorem C7_counterexample :
    coveragePresenceStyle "PRESENT" = .green ∧
    "PRESENT" ∉ closedVerdicts ∧
    coveragePresenceStyle "MATCH" = .red := by
  refine ⟨rfl, by decide, rfl⟩

/-- C7 (amended): the field- and coverage-match renderers distinguish exactly
the closed verdict set (every other status falls to the yellow fallback
style), while the GL coverage-presence items use the separate status
`PRESENT` as their only positive verdict; so every distinguished status is
drawn from the closed set extended with `PRESENT`. -/
theorem C7_verdict_enumeration (s : String) :
    (validationRowStyle s ≠ .yellow ↔ s ∈ closedVerdicts) ∧
    (coverageItemStyle s ≠ .yellow ↔ s ∈ closedVerdicts) ∧
    (threeWayStyle s ≠ .yellow ↔ s ∈ closedVerdicts) ∧
    (coveragePresenceStyle s = .green ↔ s = "PRESENT") := by
  unfold validationRowStyle coverageItemStyle threeWayStyle coveragePresenceStyle closedVerdicts
  by_cases h1 : s = "MATCH" <;> by_cases h2 : s = "MISMATCH" <;>
    by_cases h3 : s = "NOT_FOUND" <;> by_cases h4 : s = "PRESENT" <;>
    simp_all

/-- C4 counterexample: a submission attaching the required policy and one
role-tagged certificate — the ACORD certificate — satisfies the acceptance
condition as the claim words it, yet `handleUpload` rejects it with an error before any
request is sent: the guard requires a PL or GL certificate specifically. -/
theorem C4_counterexample :
    claimAccepts ⟨false, false, true, false, true⟩ = true ∧
    (handleUpload ⟨false, false, true, false, true⟩ (.ok (some "u1") (some "t1"))).2 = false ∧
    (handleUpload ⟨false, false, true, false, true⟩ (.ok (some "u1") (some "t1"))).1 =
      .rejectedBeforeRequest
        "Please upload at least one certificate (PL or GL) and the policy PDF" := by
  refine ⟨rfl, rfl, rfl⟩

/-- C4 (amended): an upload submission is sent to the server iff it attaches
the policy document and at least one PL or GL certificate (ACORD and GL ACORD
certificates are optional and do not satisfy the certificate requirement);
the accepted outcome arises exactly when the request was sent and the server
returned an upload identifier, and a submission failing the guard is rejected
with an error before any request is sent. -/
theorem C4_upload_guard (f : QCFiles) (resp : UploadServerResp) :
    (handleUpload f resp).2 = (f.policy && (f.plCertificate || f.glCertificate)) ∧
    (∀ uid, (handleUpload f resp).1 = .accepted uid ↔
      ((handleUpload f resp).2 = true ∧ respUploadId resp = some uid)) ∧
    ((handleUpload f resp).2 = false ↔
      ∃ msg, (handleUpload f resp).1 = .rejectedBeforeRequest msg) := by
  obtain ⟨pl, gl, ac, gac, po⟩ := f
  cases pl <;> cases gl <;> cases po <;>
    rcases resp with ⟨uid, tid⟩ | msg | _ | _ <;>
    (try cases uid) <;> simp [handleUpload, respUploadId]

/-- C2: a finalize response whose body has `inProgress = true` is a
keep-polling signal, not an error: the tick leaves the polling interval
installed, sets no error, keeps processing, does not complete or fail, and
keeps the client-side finalize flag so the next tick simply polls again. -/
theorem C2_inProgress_keeps_polling (s : FinalizeClientState)
    (ok success : Bool) (url err : Option String) (c e : Nat)
    (hfin : s.isFinalizing = false) :
    (checkStatusAndFinalize s (.body true c e) (.body ok success true url err)).state.polling
      = s.polling ∧
    (checkStatusAndFinalize s (.body true c e) (.body ok success true url err)).state.processing
      = s.processing ∧
    (checkStatusAndFinalize s (.body true c e) (.body ok success true url err)).state.error
      = s.error ∧
    (checkStatusAndFinalize s (.body true c e) (.body ok success true url err)).state.complete
      = s.complete ∧
    (checkStatusAndFinalize s (.body true c e) (.body ok success true url err)).state.sheetUrl
      = s.sheetUrl ∧
    (checkStatusAndFinalize s (.body true c e) (.body ok success true url err)).state.isFinalizing
      = true := by
  simp [checkStatusAndFinalize, hfin]

/-- Witness for C2 at a concrete non-finalizing state. -/
theorem C2_witness :
    (checkStatusAndFinalize ⟨3, false, true, true, false, none, none⟩
        (.body true 2 2) (.body true false true none none)).state.error = none ∧
    (checkStatusAndFinalize ⟨3, false, true, true, false, none, none⟩
        (.body true 2 2) (.body true false true none none)).state.polling = true ∧
    (checkStatusAndFinalize ⟨3, false, true, true, false, none, none⟩
        (.body true 2 2) (.body true false true none none)).state.processing = true ∧
    (checkStatusAndFinalize ⟨3, false, true, true, false, none, none⟩
        (.body true 2 2) (.body true false true none none)).state.complete = false := by
  have h := C2_inProgress_keeps_polling ⟨3, false, true, true, false, none, none⟩
    true false none none 2 2 rfl
  exact ⟨h.2.2.1, h.1, h.2.1, h.2.2.2.1⟩

/-- C3: a failed finalize attempt (unsuccessful response or network error)
within the retry budget is not terminal — the tick keeps polling, sets no
error, resets the client finalize flag — and the very next tick issues a new
finalize request (its only requests are the status and finalize fetches;
nothing is re-uploaded and extraction is not re-run), whose success completes
the flow. -/
theorem C3_finalize_retry (s : FinalizeClientState) (ok1 : Bool)
    (url1 err1 url2 : Option String) (c e c2 e2 : Nat)
    (hfin : s.isFinalizing = false) (hbudget : s.pollCount + 1 < 50) :
    (checkStatusAndFinalize s (.body true c e) (.body ok1 false false url1 err1)).state.error
      = s.error ∧
    (checkStatusAndFinalize s (.body true c e) (.body ok1 false false url1 err1)).state.polling
      = s.polling ∧
    (checkStatusAndFinalize s (.body true c e) (.body ok1 false false url1 err1)).state.processing
      = s.processing ∧
    (checkStatusAndFinalize s (.body true c e) (.body ok1 false false url1 err1)).state.complete
      = s.complete ∧
    (checkStatusAndFinalize s (.body true c e) (.body ok1 false false url1 err1)).state.isFinalizing
      = false ∧
    (checkStatusAndFinalize s (.body true c e) .netError).state.error = s.error ∧
    (checkStatusAndFinalize s (.body true c e) .netError).state.polling = s.polling ∧
    (checkStatusAndFinalize s (.body true c e) .netError).state.isFinalizing = false ∧
    (checkStatusAndFinalize
        (checkStatusAndFinalize s (.body true c e) (.body ok1 false false url1 err1)).state
        (.body true c2 e2) (.body true true false url2 none)).requests
      = [.statusReq, .finalizeReq] ∧
    (checkStatusAndFinalize
        (checkStatusAndFinalize s (.body true c e) (.body ok1 false false url1 err1)).state
        (.body true c2 e2) (.body true true false url2 none)).state.complete = true ∧
    (checkStatusAndFinalize
        (checkStatusAndFinalize s (.body true c e) (.body ok1 false false url1 err1)).state
        (.body true c2 e2) (.body true true false url2 none)).state.error = s.error ∧
    (checkStatusAndFinalize
        (checkStatusAndFinalize s (.body true c e) (.body ok1 false false url1 err1)).state
        (.body true c2 e2) (.body true true false url2 none)).state.sheetUrl = url2 ∧
    (checkStatusAndFinalize
        (checkStatusAndFinalize s (.body true c e) (.body ok1 false false url1 err1)).state
        (.body true c2 e2) (.body true true false url2 none)).state.polling = false := by
  have h60 : s.pollCount + 1 < 60 := by omega
  cases ok1 <;>
    simp [checkStatusAndFinalize, tickCatch, hfin, hbudget, h60]

/-- Witness for C3 at a concrete state within the retry budget. -/
theorem C3_witness :
    (checkStatusAndFinalize ⟨0, false, true, true, false, none, none⟩
        (.body true 1 2) (.body true false false none (some "sink down"))).state.error = none ∧
    (checkStatusAndFinalize
        (checkStatusAndFinalize ⟨0, false, true, true, false, none, none⟩
          (.body true 1 2) (.body true false false none (some "sink down"))).state
        (.body true 2 2) (.body true true false (some "http://sheet") none)).state.complete
      = true ∧
    (checkStatusAndFinalize
        (checkStatusAndFinalize ⟨0, false, true, true, false, none, none⟩
          (.body true 1 2) (.body true false false none (some "sink down"))).state
        (.body true 2 2) (.body true true false (some "http://sheet") none)).requests
      = [.statusReq, .finalizeReq] := by
  have h := C3_finalize_retry ⟨0, false, true, true, false, none, none⟩
    true none (some "sink down") (some "http://sheet") 1 2 2 2 rfl (by decide)
  exact ⟨h.1, h.2.2.2.2.2.2.2.2.2.1, h.2.2.2.2.2.2.2.2.1⟩

/-- C5 counterexample: against a backend that never becomes ready, the
polling loop issues 601 request attempts — the initial attempt plus the 600
scheduled retries — exceeding the 600 attempts the claim states, before
surfacing its terminal error. -/
theorem C5_counterexample :
    (fetchResultsLoop neverReadyEnv (maxRetries + 1) 0).attempts = 601 ∧
    600 < (fetchResultsLoop neverReadyEnv (maxRetries + 1) 0).attempts ∧
    (fetchResultsLoop neverReadyEnv (maxRetries + 1) 0).result =
      .errorOut "Results are taking longer than expected (30+ minutes). The QC task may have failed. Please check Railway logs or try uploading again." := by
  set_option maxRecDepth 4000 in
  refine ⟨by decide, by decide, by rfl⟩

/-- Attempt bound of the polling loop: starting from retry count `rc` at most
`maxRetries + 1 - rc` requests are issued, whatever the environment. -/
theorem fetchResultsLoop_attempts_le (env : Nat → ResultsResp) :
    ∀ (fuel rc : Nat), rc ≤ maxRetries →
      (fetchResultsLoop env fuel rc).attempts ≤ maxRetries + 1 - rc := by
  intro fuel
  induction fuel with
  | zero => intro rc h; simp [fetchResultsLoop]
  | succ f ih =>
    intro rc hrc
    have step : rc < maxRetries →
        ((fetchResultsLoop env f (rc + 1)).afterRetry).attempts ≤ maxRetries + 1 - rc := by
      intro hlt
      have h := ih (rc + 1) (by omega)
      simp only [PollRun.afterRetry]
      omega
    cases henv : env rc with
    | ok => simp [fetchResultsLoop, henv]; omega
    | httpErr code =>
      simp only [fetchResultsLoop, henv]
      split
      · next hcond => exact step hcond.2
      · split
        · next hlt => exact step hlt
        · simp; omega
    | bodyNotReady =>
      simp only [fetchResultsLoop, henv]
      split
      · next hlt => exact step hlt
      · simp; omega
    | bodyOtherErr =>
      simp only [fetchResultsLoop, henv]
      split
      · next hlt => exact step hlt
      · simp; omega
    | netErr =>
      simp only [fetchResultsLoop, henv]
      split
      · next hlt => exact step hlt
      · simp; omega

/-- Fuel sufficiency: with `maxRetries + 1 - rc` fuel available the loop
always reaches a terminal result. -/
theorem fetchResultsLoop_no_fuelOut (env : Nat → ResultsResp) :
    ∀ (fuel rc : Nat), rc ≤ maxRetries → maxRetries + 1 ≤ fuel + rc →
      (fetchResultsLoop env fuel rc).result ≠ .fuelOut := by
  intro fuel
  induction fuel with
  | zero => intro rc h1 h2; omega
  | succ f ih =>
    intro rc hrc hfuel
    have step : rc < maxRetries →
        ((fetchResultsLoop env f (rc + 1)).afterRetry).result ≠ .fuelOut := by
      intro hlt
      have h := ih (rc + 1) (by omega) (by omega)
      simpa [PollRun.afterRetry] using h
    cases henv : env rc with
    | ok => simp [fetchResultsLoop, henv]
    | httpErr code =>
      simp only [fetchResultsLoop, henv]
      split
      · next hcond => exact step hcond.2
      · split
        · next hlt => exact step hlt
        · simp
    | bodyNotReady =>
      simp only [fetchResultsLoop, henv]
      split
      · next hlt => exact step hlt
      · simp
    | bodyOtherErr =>
      simp only [fetchResultsLoop, henv]
      split
      · next hlt => exact step hlt
      · simp
    | netErr =>
      simp only [fetchResultsLoop, henv]
      split
      · next hlt => exact step hlt
      · simp

/-- Every retry the loop ever schedules uses the fixed 3000 ms delay. -/
theorem fetchResultsLoop_delays (env : Nat → ResultsResp) :
    ∀ (fuel rc : Nat),
      ((fetchResultsLoop env fuel rc).delays.all fun d => d == retryDelayMs) = true := by
  intro fuel
  induction fuel with
  | zero => intro rc; simp [fetchResultsLoop]
  | succ f ih =>
    intro rc
    cases henv : env rc <;>
      simp only [fetchResultsLoop, henv] <;>
      (repeat' split) <;>
      simp_all [PollRun.afterRetry, ih] <;>
      exact fun x hx => ih (rc + 1) x hx

/-- C5 (amended): the results polling loop is bounded and terminating — it
performs at most `maxRetries + 1 = 601` request attempts (the initial attempt
plus up to 600 scheduled retries, each after a fixed 3000 ms delay), and when
the budget is exhausted against a never-ready backend it surfaces the
terminal error to its caller instead of polling forever. -/
theorem C5_bounded_polling (env : Nat → ResultsResp) :
    (fetchResultsLoop env (maxRetries + 1) 0).attempts ≤ maxRetries + 1 ∧
    (fetchResultsLoop env (maxRetries + 1) 0).result ≠ .fuelOut ∧
    ((fetchResultsLoop env (maxRetries + 1) 0).delays.all fun d => d == retryDelayMs) = true ∧
    (fetchResultsLoop neverReadyEnv (maxRetries + 1) 0).result =
      .errorOut "Results are taking longer than expected (30+ minutes). The QC task may have failed. Please check Railway logs or try uploading again." := by
  refine ⟨?_, ?_, fetchResultsLoop_delays env _ 0, ?_⟩
  · have h := fetchResultsLoop_attempts_le env (maxRetries + 1) 0 (by omega)
    omega
  · exact fetchResultsLoop_no_fuelOut env (maxRetries + 1) 0 (by omega) (by omega)
  · set_option maxRecDepth 4000 in rfl

/-- C10: once the polling effect has loaded results or been cancelled it
neither issues another results request nor schedules another retry timer —
with results loaded, or with cancellation observed at entry, the step fetches
nothing and schedules nothing; cancellation observed at the post-fetch check
sites suppresses every retry; scheduling can only happen with the entry flags
clear; a successful response never schedules a retry; and the effect cleanup
clears any pending timer and sets the cancellation flag. -/
theorem C10_no_poll_after_success :
    (∀ (c1 c2 c3 c4 cc : Bool) (rc : Nat) (resp : ResultsResp),
      (fetchStep true c1 c2 c3 c4 cc rc resp).fetched = false ∧
      (fetchStep true c1 c2 c3 c4 cc rc resp).scheduled = false) ∧
    (∀ (rl c2 c3 c4 cc : Bool) (rc : Nat) (resp : ResultsResp),
      (fetchStep rl true c2 c3 c4 cc rc resp).fetched = false ∧
      (fetchStep rl true c2 c3 c4 cc rc resp).scheduled = false) ∧
    (∀ (rl c1 : Bool) (rc : Nat) (resp : ResultsResp),
      (fetchStep rl c1 true true true true rc resp).scheduled = false) ∧
    (∀ (rl c1 c2 c3 c4 cc : Bool) (rc : Nat) (resp : ResultsResp),
      ((fetchStep rl c1 c2 c3 c4 cc rc resp).scheduled && (c1 || rl)) = false) ∧
    (∀ (rl c1 c2 c3 c4 cc : Bool) (rc : Nat),
      (fetchStep rl c1 c2 c3 c4 cc rc .ok).scheduled = false) ∧
    (∀ e : EffectLocal,
      (effectCleanup e).pendingTimer = none ∧ (effectCleanup e).cancelled = true) := by
  refine ⟨?_, ?_, ?_, ?_, ?_, ?_⟩
  · intro c1 c2 c3 c4 cc rc resp
    cases resp <;> simp [fetchStep]
  · intro rl c2 c3 c4 cc rc resp
    cases resp <;> simp [fetchStep]
  · intro rl c1 rc resp
    cases resp <;> cases rl <;> cases c1 <;> simp [fetchStep]
  · intro rl c1 c2 c3 c4 cc rc resp
    cases resp <;> cases rl <;> cases c1 <;> simp [fetchStep]
  · intro rl c1 c2 c3 c4 cc rc
    cases rl <;> cases c1 <;> cases c2 <;> cases c4 <;> simp [fetchStep]
  · intro e
    exact ⟨rfl, rfl⟩

/-- Entries whose value is `null` or `undefined` contribute nothing to the
flattened output, at the position they occupy. -/
theorem flattenData_skips (isF : Bool) (fuel : Nat) (k : String) (v : JVal)
    (hv : v = JVal.null ∨ v = JVal.undef) :
    ∀ (pfx : String) (l1 l2 : List (String × JVal)),
      flattenData isF fuel pfx (l1 ++ (k, v) :: l2) = flattenData isF fuel pfx (l1 ++ l2) := by
  intro pfx l1
  induction l1 with
  | nil =>
    intro l2
    rcases hv with h | h <;> subst h <;> simp [flattenData]
  | cons p rest ih =>
    intro l2
    obtain ⟨k2, v2⟩ := p
    cases v2 <;> simp only [List.cons_append, flattenData] <;> rw [ih l2]

/-- In the unflagged display mode every flattened entry carries the color
flag `black`. -/
theorem flattenData_unflagged_black :
    ∀ (fuel : Nat) (pfx : String) (l : List (String × JVal)),
      ∀ e ∈ flattenData false fuel pfx l, isBlackFlag e.2.color = true := by
  intro fuel
  induction fuel with
  | zero =>
    intro pfx l
    induction l with
    | nil => intro e he; simp [flattenData] at he
    | cons p rest ihl =>
      obtain ⟨k, v⟩ := p
      intro e he
      cases v <;> simp [flattenData, List.mem_append] at he
      case null => exact ihl e he
      case undef => exact ihl e he
      case bool b =>
        rcases he with rfl | h
        · simp [isBlackFlag]
        · exact ihl e h
      case num n =>
        rcases he with rfl | h
        · simp [isBlackFlag]
        · exact ihl e h
      case str s =>
        rcases he with rfl | h
        · simp [isBlackFlag]
        · exact ihl e h
      case arr xs =>
        rcases he with rfl | h
        · simp [isBlackFlag]
        · exact ihl e h
      case obj fields => exact ihl e he
  | succ f ihf =>
    intro pfx l
    induction l with
    | nil => intro e he; simp [flattenData] at he
    | cons p rest ihl =>
      obtain ⟨k, v⟩ := p
      intro e he
      cases v <;> simp [flattenData, List.mem_append] at he
      case null => exact ihl e he
      case undef => exact ihl e he
      case bool b =>
        rcases he with rfl | h
        · simp [isBlackFlag]
        · exact ihl e h
      case num n =>
        rcases he with rfl | h
        · simp [isBlackFlag]
        · exact ihl e h
      case str s =>
        rcases he with rfl | h
        · simp [isBlackFlag]
        · exact ihl e h
      case arr xs =>
        rcases he with rfl | h
        · simp [isBlackFlag]
        · exact ihl e h
      case obj fields =>
        rcases he with h | h
        · exact ihf (joinKey pfx k) fields e h
        · exact ihl e h

/-- C9: the field-flattening function of the extracted-fields display
produces no output entry for any key whose value is `null` or `undefined` —
such entries are silently omitted at every nesting level — while in the
unflagged mode every retained leaf is paired with a value and the default
color tag `black`. -/
theorem C9_flatten_omits_null :
    (∀ (isF : Bool) (fuel : Nat) (pfx k : String) (l1 l2 : List (String × JVal)),
      flattenData isF fuel pfx (l1 ++ (k, .null) :: l2) = flattenData isF fuel pfx (l1 ++ l2)) ∧
    (∀ (isF : Bool) (fuel : Nat) (pfx k : String) (l1 l2 : List (String × JVal)),
      flattenData isF fuel pfx (l1 ++ (k, .undef) :: l2) = flattenData isF fuel pfx (l1 ++ l2)) ∧
    (∀ (fuel : Nat) (pfx : String) (l : List (String × JVal)),
      ((flattenData false fuel pfx l).all fun e => isBlackFlag e.2.color) = true) := by
  refine ⟨?_, ?_, ?_⟩
  · intro isF fuel pfx k l1 l2
    exact flattenData_skips isF fuel k .null (Or.inl rfl) pfx l1 l2
  · intro isF fuel pfx k l1 l2
    exact flattenData_skips isF fuel k .undef (Or.inr rfl) pfx l1 l2
  · intro fuel pfx l
    rw [List.all_eq_true]
    intro e he
    exact flattenData_unflagged_black fuel pfx l e he

/-- C8: a name judged similar but not identical (normalized forms differ yet
lie within the edit-distance threshold) yields the verdict `MATCH` with
qualifier `NAME_VARIATION`, and the qualifier is preserved to the rendered
output: the item surfaces the `MATCH` badge together with the OCR-variation
badge and the additional-interest notice — and, in general, any item whose
`match_type` is `NAME_VARIATION` is rendered with the variation badge, never
dropped. -/
theorem C8_name_variation_preserved (policyName certName : String)
    (hneq : normalizeName policyName ≠ normalizeName certName)
    (hsim : editDistance (normalizeName policyName).data (normalizeName certName).data
      ≤ nameSimilarityThreshold)
    (hcert : certName ≠ "") :
    (mkInterestItem policyName certName).status = "MATCH" ∧
    (mkInterestItem policyName certName).match_type = some nameVariationQualifier ∧
    (renderCoverageItem (mkInterestItem policyName certName)).statusText = "MATCH" ∧
    (renderCoverageItem (mkInterestItem policyName certName)).variationBadge = true ∧
    (renderCoverageItem (mkInterestItem policyName certName)).variationNotice = true ∧
    (∀ it : CoverageItemData, it.match_type = some nameVariationQualifier →
      (renderCoverageItem it).variationBadge = true) := by
  have hmk : mkInterestItem policyName certName =
      { status := "MATCH", match_type := some nameVariationQualifier
      , cert_limit_key := none, cert_interest_name := some certName
      , cert_interest_address := none, policy_interest_name := some policyName
      , policy_interest_address := none, policy_interest_type := none
      , notes := none, evidence := none } := by
    simp [mkInterestItem, reconcileInterestName, hneq, hsim]
  refine ⟨?_, ?_, ?_, ?_, ?_, ?_⟩
  · rw [hmk]
  · rw [hmk]
  · rw [hmk]; rfl
  · rw [hmk]; simp [renderCoverageItem, matchTypeIsVariation, nameVariationQualifier]
  · rw [hmk]
    simp [renderCoverageItem, matchTypeIsVariation, truthyOpt, nameVariationQualifier, hcert]
  · intro it hit
    simp [renderCoverageItem, matchTypeIsVariation, hit, nameVariationQualifier]

/-- Witness for C8 at a concrete single-character OCR-style substitution. -/
theorem C8_witness :
    (mkInterestItem "John Smith" "John Smyth").status = "MATCH" ∧
    (mkInterestItem "John Smith" "John Smyth").match_type = some nameVariationQualifier ∧
    (renderCoverageItem (mkInterestItem "John Smith" "John Smyth")).variationBadge = true ∧
    (renderCoverageItem (mkInterestItem "John Smith" "John Smyth")).variationNotice = true := by
  have h := C8_name_variation_preserved "John Smith" "John Smyth"
    (by decide) (by decide) (by decide)
  exact ⟨h.1, h.2.1, h.2.2.2.1, h.2.2.2.2.1⟩
